import Mathlib

/-
Verification of the WhatsApp transcript converter (`whatsapp_convert.py`).

The development shallowly embeds the script's core: the two header regexes
and `ParseLine`, the segmenter `IdentifyMessages`, the sender grouping done
in `TemplateData` via `itertools.groupby`, and the media-classification
decision chain of the Jinja template in `FormatHTML`.

Python strings are embedded as `List Char` (Python indexing and slicing are
code-point based, as is `List Char`).  Input lines are modelled without their
trailing newline character: `readlines` keeps it, but the header regexes
never consume it (`.` and `$` stop before a final newline) and `str.strip()`
removes it, so nothing below depends on it.
-/

/-- The code points of a string literal. -/
def chars (s : String) : List Char := s.data

/-- The apostrophe character (written via its code point to keep source lines
free of stray quote characters). -/
def apos : Char := Char.ofNat 39

/-- ASCII whitespace recognised by Python `str.strip()` (the model restricts
Python's whitespace set to ASCII; every input considered here is ASCII). -/
def pyIsSpace (c : Char) : Bool :=
  c = ' ' ∨ c = '\t' ∨ c = '\n' ∨ c = '\r' ∨ c = '\x0b' ∨ c = '\x0c'

/-- Python `line.strip()`: remove leading and trailing whitespace. -/
def pyStrip (s : List Char) : List Char :=
  ((s.dropWhile pyIsSpace).reverse.dropWhile pyIsSpace).reverse

/-- Index of the first occurrence of `needle` in a list, scanning left to
right, as Python `str.index` computes it. -/
def pyFind (needle : List Char) : List Char → Option Nat
  | [] => if needle.isPrefixOf ([] : List Char) then some 0 else none
  | x :: t =>
      if needle.isPrefixOf (x :: t) then some 0
      else (pyFind needle t).map (· + 1)

/-- Python `hay.index(needle)` (`none` models the `ValueError` raise). -/
def pyIndexOpt (needle hay : List Char) : Option Nat := pyFind needle hay

/-- Python `needle in hay` (substring containment). -/
def containsSub (hay needle : List Char) : Bool := (pyIndexOpt needle hay).isSome

/-- Whether a single character occurs in a string. -/
def hasChar (s : List Char) (c : Char) : Bool := s.any (fun x => x = c)

/-- Python `s.replace(pat, repl)`: replace every non-overlapping occurrence,
scanning left to right.  (Python's empty-pattern behaviour is not needed:
the script only replaces a fixed non-empty phrase.) -/
def pyReplace (pat repl : List Char) : List Char → List Char
  | [] => []
  | c :: rest =>
      if h : pat ≠ [] ∧ pat.isPrefixOf (c :: rest) then
        repl ++ pyReplace pat repl ((c :: rest).drop pat.length)
      else c :: pyReplace pat repl rest
termination_by s => s.length
decreasing_by
  · simp only [List.length_cons, List.length_drop]
    have hp : 1 ≤ pat.length := by
      rcases h with ⟨hne, -⟩
      cases pat with
      | nil => exact absurd rfl hne
      | cons a t => simp
    omega
  · simp

/-- One hexadecimal digit character (lower case, as Python prints them). -/
def hexDigitChar (n : Nat) : Char :=
  if n < 10 then Char.ofNat (48 + n) else Char.ofNat (87 + n)

/-- A `\xhh` escape for a control character, as Python `repr` prints it for
code points below 256 (the only control characters reachable here). -/
def hexEscape (c : Char) : List Char :=
  ['\\', 'x', hexDigitChar (c.toNat / 16 % 16), hexDigitChar (c.toNat % 16)]

/-- How Python `repr` renders one character of a string delimited by the
quote character `q`: backslashes and the delimiter are backslash-escaped,
newline / carriage return / tab become two-character escapes, other control
characters become `\xhh`, and everything else is kept verbatim. -/
def reprEscape (q : Char) (c : Char) : List Char :=
  if c = '\\' then ['\\', '\\']
  else if c = q then ['\\', q]
  else if c = '\n' then ['\\', 'n']
  else if c = '\r' then ['\\', 'r']
  else if c = '\t' then ['\\', 't']
  else if c.toNat < 32 ∨ c.toNat = 127 then hexEscape c
  else [c]

/-- Python `repr` of a string: single-quoted, unless the string contains a
single quote but no double quote, in which case it is double-quoted. -/
def pyRepr (s : List Char) : List Char :=
  let q : Char := if hasChar s apos && !(hasChar s '"') then '"' else apos
  q :: (s.flatMap (reprEscape q) ++ [q])

/-
The header grammars.  Python's `re.match` on these patterns is a leftmost
backtracking search: greedy `+` and `?`, alternatives tried in written
order, anchored at the start of the line, with no requirement to consume
the whole line.  `RxM α` enumerates every way a pattern can match a prefix
of the input, in exactly that backtracking priority order; the head of the
list is the match `re.match` returns.
-/

/-- A pattern fragment: all (captures, remaining input) pairs, in Python's
backtracking priority order. -/
def RxM (α : Type) : Type := List Char → List (α × List Char)

/-- Match nothing, produce a value. -/
def rxPure {α : Type} (a : α) : RxM α := fun s => [(a, s)]

/-- Sequencing of pattern fragments (depth-first, preserving priority). -/
def rxBind {α β : Type} (p : RxM α) (f : α → RxM β) : RxM β :=
  fun s => (p s).flatMap (fun pr => f pr.1 pr.2)

/-- A literal character. -/
def rxLit (c : Char) : RxM Unit := fun s =>
  match s with
  | x :: rest => if x = c then [((), rest)] else []
  | [] => []

/-- A literal string. -/
def rxStr (cs : List Char) : RxM Unit := fun s =>
  if cs.isPrefixOf s then [((), s.drop cs.length)] else []

/-- Greedy `?`: the with-branch is preferred. -/
def rxOpt {α : Type} (p : RxM α) : RxM (Option α) := fun s =>
  ((p s).map (fun pr => (some pr.1, pr.2))) ++ [(none, s)]

/-- Greedy `[class]+`: one or more characters of a class, longest first. -/
def rxCls (cls : Char → Bool) : RxM (List Char) := fun s =>
  let n := (s.takeWhile cls).length
  (List.range n).map (fun i => (s.take (n - i), s.drop (n - i)))

/-- Alternation, alternatives tried in written order. -/
def rxAlt {α : Type} (ps : List (RxM α)) : RxM α := fun s =>
  ps.flatMap (fun p => p s)

/-- `(?P<body>.*$)` on a newline-free line: the whole remaining input. -/
def rxRest : RxM (List Char) := fun s => [(s, [])]

/-- `( [AP]M)?`'s inner group ` [AP]M`, capturing its text. -/
def rxAmPm : RxM (List Char) :=
  rxBind (rxLit ' ') (fun _ =>
  rxBind (rxAlt [rxBind (rxLit 'A') (fun _ => rxPure 'A'),
                 rxBind (rxLit 'P') (fun _ => rxPure 'P')]) (fun c =>
  rxBind (rxLit 'M') (fun _ => rxPure [' ', c, 'M'])))

/-- The `date` and `time` captures of `DATETIME_RE` (an optional opening
bracket, a run of digits, slashes and dashes, an optional comma, a space,
a run of digits and colons, an optional AM/PM marker, an optional closing
bracket); the `time` group includes the optional AM/PM part, as the regex
group does. -/
structure DtParts where
  date : List Char
  time : List Char
deriving DecidableEq

/-- `DATETIME_RE` as a pattern fragment. -/
def rxDatetime : RxM DtParts :=
  rxBind (rxOpt (rxLit '[')) (fun _ =>
  rxBind (rxCls (fun c => c.isDigit || c = '/' || c = '-')) (fun d =>
  rxBind (rxOpt (rxLit ',')) (fun _ =>
  rxBind (rxLit ' ') (fun _ =>
  rxBind (rxCls (fun c => c.isDigit || c = ':')) (fun t =>
  rxBind (rxOpt rxAmPm) (fun ap =>
  rxBind (rxOpt (rxLit ']')) (fun _ =>
  rxPure ⟨d, t ++ ap.getD []⟩)))))))

/-- `SEPARATOR_RE` = `( - |: | )`, alternatives in written order. -/
def rxSep : RxM Unit :=
  rxAlt [rxStr (chars " - "), rxStr (chars ": "), rxStr (chars " ")]

/-- The captures of `WHATSAPP_RE`. -/
structure WParts where
  date : List Char
  time : List Char
  name : List Char
  body : List Char
deriving DecidableEq

/-- `WHATSAPP_RE` = datetime, separator, `(?P<name>[^:]+)`, `: `, body. -/
def rxWhatsapp : RxM WParts :=
  rxBind rxDatetime (fun dt =>
  rxBind rxSep (fun _ =>
  rxBind (rxCls (fun c => c ≠ ':')) (fun nm =>
  rxBind (rxStr (chars ": ")) (fun _ =>
  rxBind rxRest (fun b =>
  rxPure ⟨dt.date, dt.time, nm, b⟩)))))

/-- The captures of `FIRSTLINE_RE`. -/
structure FParts where
  date : List Char
  time : List Char
  body : List Char
deriving DecidableEq

/-- `FIRSTLINE_RE` = datetime, separator, body. -/
def rxFirstline : RxM FParts :=
  rxBind rxDatetime (fun dt =>
  rxBind rxSep (fun _ =>
  rxBind rxRest (fun b =>
  rxPure ⟨dt.date, dt.time, b⟩)))

/-- `re.match(pattern, line)`: the first match in backtracking order. -/
def reMatch {α : Type} (p : RxM α) (s : List Char) : Option α :=
  (p s).head?.map (fun pr => pr.1)

/-- `a.end() - a.start()` for `a = re.match(DATETIME_RE, line)`: the width of
the span the standalone datetime pattern matches at the start of the line
(`none` when it does not match, in which case the script would have crashed
on the attribute access — shown unreachable where used). -/
def dtSpan (s : List Char) : Option Nat :=
  (rxDatetime s).head?.map (fun pr => s.length - pr.2.length)

/-- The source text of `WHATSAPP_RE` (used verbatim in the first-line error
message). -/
def whatsappReStr : List Char :=
  chars "\\[?(?P<date>[\\d/-]+),? (?P<time>[\\d:]+( [AP]M)?)\\]?( - |: | )(?P<name>[^:]+): (?P<body>.*$)"

/-- The source text of `FIRSTLINE_RE`. -/
def firstlineReStr : List Char :=
  chars "\\[?(?P<date>[\\d/-]+),? (?P<time>[\\d:]+( [AP]M)?)\\]?( - |: | )(?P<body>.*$)"

/-- A naive datetime record, standing in for Python's `datetime.datetime`. -/
structure PyDateTime where
  year : Nat
  month : Nat
  day : Nat
  hour : Nat
  minute : Nat
  second : Nat
deriving DecidableEq

/-- Split a string at every occurrence of one of the separator characters,
keeping empty fields. -/
def splitSeps (seps : List Char) : List Char → List (List Char)
  | [] => [[]]
  | c :: rest =>
      let r := splitSeps seps rest
      if seps.contains c then [] :: r
      else
        match r with
        | [] => [[c]]
        | f :: fs => (c :: f) :: fs

/-- The numeric value of a non-empty all-digit string. -/
def toNatOpt (s : List Char) : Option Nat :=
  if s = [] ∨ ¬ s.all Char.isDigit then none
  else some (s.foldl (fun acc c => acc * 10 + (c.toNat - 48)) 0)

/-- Gregorian leap year. -/
def leapYear (y : Nat) : Bool := (y % 4 = 0 ∧ y % 100 ≠ 0) ∨ y % 400 = 0

/-- Days in a month. -/
def daysInMonth (y m : Nat) : Nat :=
  if m = 2 then (if leapYear y then 29 else 28)
  else if m = 4 ∨ m = 6 ∨ m = 9 ∨ m = 11 then 30 else 31

/-- Modelled from the spec: the clock part of the date-time interpretation the
script delegates to the external `dateutil` library (not part of this
repository).  Per the spec, the time "may be 12-hour (with AM or PM) or
24-hour": an optional AM/PM suffix, then one to three colon-separated numeric
fields (hour, minute, second); minutes and seconds must be below 60, a
24-hour hour below 24, a 12-hour hour between 1 and 12. -/
def parseClock (time : List Char) : Option (Nat × Nat × Nat) :=
  let stripped :=
    if (chars " AM").isSuffixOf time then (time.take (time.length - 3), some false)
    else if (chars " PM").isSuffixOf time then (time.take (time.length - 3), some true)
    else (time, none)
  match (splitSeps [':'] stripped.1).mapM toNatOpt with
  | none => none
  | some tn =>
      let hms : Option (Nat × Nat × Nat) :=
        match tn with
        | [h] => some (h, 0, 0)
        | [h, mi] => some (h, mi, 0)
        | [h, mi, s] => some (h, mi, s)
        | _ => none
      match hms with
      | none => none
      | some (h, mi, s) =>
          if mi < 60 ∧ s < 60 then
            match stripped.2 with
            | none => if h < 24 then some (h, mi, s) else none
            | some isPm =>
                if 1 ≤ h ∧ h ≤ 12 then
                  some ((if isPm then h % 12 + 12 else h % 12), mi, s)
                else none
          else none

/-- Modelled from the spec: the date-time interpretation the script delegates
to the external `dateutil` library (`dateutil.parser.parse(date + " " + time,
dayfirst=True)`), which is not part of this repository.  Per the spec:
"day-first locale convention assumed; date may be separated by slash or dash",
and a malformed date or time makes parsing fail.  The model requires three
numeric date fields; day-first assignment is used, with day and month swapped
when the middle field cannot be a month; two-digit years are widened to the
current century below 70 and the previous one otherwise; the day must fit the
Gregorian month.  (dateutil defaults for one- and two-field dates are not
modelled; no claim depends on them.) -/
def parseDayfirstDateTime (date time : List Char) : Option PyDateTime :=
  match (splitSeps ['/', '-'] date).mapM toNatOpt with
  | none => none
  | some dn =>
      match dn with
      | [f1, f2, f3] =>
          let y := if f3 < 100 then (if f3 < 70 then 2000 + f3 else 1900 + f3) else f3
          let dm : Option (Nat × Nat) :=
            if 1 ≤ f2 ∧ f2 ≤ 12 then some (f1, f2)
            else if 1 ≤ f1 ∧ f1 ≤ 12 then some (f2, f1)
            else none
          match dm with
          | none => none
          | some (d, mo) =>
              if 1 ≤ d ∧ d ≤ daysInMonth y mo then
                match parseClock time with
                | none => none
                | some (h, mi, s) => some ⟨y, mo, d, h, mi, s⟩
              else none
      | _ => none

/-- Modelled from the spec: the message text of the error the external
`dateutil` library raises on an uninterpretable date/time (its `ParserError`,
a `ValueError`, prints the rejected string this way). -/
def dtErrMsg (date time : List Char) : List Char :=
  chars "Unknown string format: " ++ date ++ [' '] ++ time

/-- A raised Python exception.  `valueError` covers `ValueError` and its
subclasses raised by library calls (`str.index`, dateutil); `appError` is the
script's own `Error` class. -/
inductive PyError where
  | valueError (msg : List Char)
  | appError (msg : List Char)
deriving DecidableEq

/-- A parsed message: the `(date, user, body)` triple the script builds. -/
structure Msg where
  date : PyDateTime
  sender : List Char
  body : List Char
deriving DecidableEq

/-- The sender placeholder the script uses for headerless (system) lines. -/
def whatsappSender : List Char := chars "Whatsapp"

/-- `ParseLine`: try `WHATSAPP_RE`, then `FIRSTLINE_RE`; a headerless match
is kept only when the standalone `DATETIME_RE` span is exactly 16 characters;
date-time interpretation failures propagate as exceptions. -/
def parseLine (line : List Char) : Except PyError (Option Msg) :=
  match reMatch rxWhatsapp line with
  | some g =>
      match parseDayfirstDateTime g.date g.time with
      | some d => .ok (some ⟨d, g.name, g.body⟩)
      | none => .error (.valueError (dtErrMsg g.date g.time))
  | none =>
      match reMatch rxFirstline line with
      | some g =>
          match dtSpan line with
          | none => .error (.valueError (chars "AttributeError"))
          | some n =>
              if n ≠ 16 then .ok none
              else
                match parseDayfirstDateTime g.date g.time with
                | some d => .ok (some ⟨d, whatsappSender, g.body⟩)
                | none => .error (.valueError (dtErrMsg g.date g.time))
      | none => .ok none

/-- The message of the `Error` raised when the first line parses as neither
grammar, concatenated exactly as the script builds it. -/
def firstLineMsg (line : List Char) : List Char :=
  chars "Can" ++ (apos :: chars "t parse the first line: ") ++ pyRepr line ++
  chars ", regexes are " ++ chars "FIRSTLINE_RE=" ++ pyRepr firstlineReStr ++
  chars " and " ++ chars "WHATSAPP_RE=" ++ pyRepr whatsappReStr

/-- The loop body of `IdentifyMessages`: `acc` is the completed-message list,
`cur` the message under construction (`none` before the first header). -/
def identifyGo (acc : List Msg) (cur : Option Msg) :
    List (List Char) → Except PyError (List Msg)
  | [] =>
      match cur with
      | some m => .ok (acc ++ [m])
      | none => .ok acc
  | line :: rest =>
      match parseLine line with
      | .error e => .error e
      | .ok (some m) =>
          match cur with
          | some prev => identifyGo (acc ++ [prev]) (some m) rest
          | none => identifyGo acc (some m) rest
      | .ok none =>
          match cur with
          | none => .error (.appError (firstLineMsg line))
          | some prev =>
              identifyGo acc
                (some ⟨prev.date, prev.sender, prev.body ++ '\n' :: pyStrip line⟩)
                rest

/-- `IdentifyMessages` over in-memory lines. -/
def identifyMessages (lines : List (List Char)) : Except PyError (List Msg) :=
  identifyGo [] none lines

/-- Propositional equality on `Except` results is decidable componentwise. -/
instance {e a : Type} [DecidableEq e] [DecidableEq a] : DecidableEq (Except e a) := fun x y =>
  match x, y with
  | .error u, .error v =>
      if h : u = v then .isTrue (by rw [h]) else .isFalse (fun hh => h (Except.error.inj hh))
  | .error _, .ok _ => .isFalse (fun hh => Except.noConfusion hh)
  | .ok _, .error _ => .isFalse (fun hh => Except.noConfusion hh)
  | .ok u, .ok v =>
      if h : u = v then .isTrue (by rw [h]) else .isFalse (fun hh => h (Except.ok.inj hh))

/-- The two missed-call notice strings the template tests for. -/
def missedVoice : List Char := chars "Chamada de voz perdida"

/-- The missed video call notice string. -/
def missedVideo : List Char := chars "Chamada de vídeo perdida"

/-- The location marker the template tests for with `in`. -/
def locMarker : List Char := chars "localização:"

/-- The marker the template's filename slices search with `.index`. -/
def arqMarker : List Char := chars " (arquivo"

/-- The generic attachment phrase the template tests for with `in`. -/
def arqAnexado : List Char := chars "(arquivo anexado)"

/-- The classified content of a message body. -/
inductive MediaCategory where
  | missedCall
  | locationShare (text : List Char)
  | audio (filename : List Char)
  | video (filename : List Char)
  | image (filename : List Char)
  | genericFile (filename display : List Char)
  | plainText (body : List Char)
deriving DecidableEq

/-- The attachment filename slice `message[2][1:message[2].index(' (arquivo')]`
(`.error` models the `ValueError` Python raises when the marker is absent). -/
def attachName (body : List Char) : Except PyError (List Char) :=
  match pyIndexOpt arqMarker body with
  | some i => .ok ((body.drop 1).take (i - 1))
  | none => .error (.valueError (chars "substring not found"))

/-- The media-classification decision chain of the template in `FormatHTML`
(the branch for a named sender, lines 262-310; the other two copies differ
only in markup).  The missed-call icon test is a separate `if` in the
template, but both notice strings contain none of the later markers and would
fall through to plain text, so the icon case is modelled as the first branch.
The containment test on the location marker and the `.index` call that
follows it locate the same first occurrence, so they are modelled by one
`match` on that index; likewise for the generic-attachment branch. -/
def classify (body : List Char) : Except PyError MediaCategory :=
  if body = missedVoice ∨ body = missedVideo then .ok .missedCall
  else
    match pyIndexOpt locMarker body with
    | some i => .ok (.locationShare (body.drop (i + 13)))
    | none =>
      if (chars ".opus (arquivo anexado)").isSuffixOf body
          || (chars ".mp3 (arquivo anexado)").isSuffixOf body
          || (chars ".mp3").isSuffixOf body then
        match attachName body with
        | .ok f => .ok (.audio f)
        | .error e => .error e
      else if (chars ".mp4 (arquivo anexado)").isSuffixOf body then
        match attachName body with
        | .ok f => .ok (.video f)
        | .error e => .error e
      else
        match pyIndexOpt (chars ".webp (arquivo") body with
        | some _ =>
            match attachName body with
            | .ok f => .ok (.image f)
            | .error e => .error e
        | none =>
          if (chars ".jpg (arquivo anexado)").isSuffixOf body then
            match attachName body with
            | .ok f => .ok (.image f)
            | .error e => .error e
          else
            match pyIndexOpt arqAnexado body with
            | some _ =>
                match attachName body with
                | .error e => .error e
                | .ok f =>
                    match pyIndexOpt (chars ")") body with
                    | none => .error (.valueError (chars "substring not found"))
                    | some j =>
                        if body.drop (j + 1) ≠ [] then
                          .ok (.genericFile f (body.drop (j + 2)))
                        else
                          .ok (.genericFile f
                            (pyReplace (chars " (arquivo anexado)") [] body))
            | none => .ok (.plainText body)

/-- Spec-side definition, following the spec's words for the location rule:
"the coordinate/link text is everything following the marker" — the suffix of
the body after the first occurrence of the marker. -/
def afterFirst (marker s : List Char) : Option (List Char) :=
  (pyIndexOpt marker s).map (fun i => s.drop (i + marker.length))

/-- The grouping `TemplateData` performs with `itertools.groupby(messages,
lambda x: x[1])`: maximal contiguous runs of messages with equal sender,
each tagged with the sender of its first message. -/
def groupRuns : List Msg → List (List Char × List Msg)
  | [] => []
  | m :: rest =>
      (m.sender, m :: rest.takeWhile (fun x => decide (x.sender = m.sender))) ::
        groupRuns (rest.dropWhile (fun x => decide (x.sender = m.sender)))
termination_by l => l.length
decreasing_by
  simp only [List.length_cons]
  exact Nat.lt_succ_of_le (List.dropWhile_sublist _).length_le

/-- Characters that Python `repr` passes through unchanged inside a
single-quoted string: not the quote, not a backslash, not a control
character. -/
def reprPlain (c : Char) : Bool :=
  c ≠ apos ∧ c ≠ '\\' ∧ 32 ≤ c.toNat ∧ c.toNat ≠ 127

theorem pyFind_append_isSome (needle : List Char) :
    ∀ (a c : List Char), (pyFind needle (a ++ (needle ++ c))).isSome = true := by
  intro a
  induction a with
  | nil =>
      intro c
      cases needle with
      | nil => cases c <;> simp [pyFind, List.isPrefixOf]
      | cons x t =>
          have hp : (x :: t).isPrefixOf ((x :: t) ++ c) = true := by
            rw [List.isPrefixOf_iff_prefix]
            exact List.prefix_append _ _
          simp [pyFind, hp]
  | cons x a ih =>
      intro c
      simp only [List.cons_append, pyFind]
      by_cases hp : needle.isPrefixOf (x :: (a ++ (needle ++ c))) = true
      · simp [hp]
      · simp only [Bool.not_eq_true] at hp
        simp [hp, ih c]

/-- Substring containment holds whenever the haystack literally decomposes
around the needle. -/
theorem containsSub_parts (a needle c : List Char) :
    containsSub (a ++ (needle ++ c)) needle = true :=
  pyFind_append_isSome needle a c

theorem dropWhile_head_false {α : Type} (p : α → Bool) :
    ∀ (l : List α) (b : α) (t : List α), l.dropWhile p = b :: t → p b = false := by
  intro l
  induction l with
  | nil => intro b t h; simp [List.dropWhile] at h
  | cons x xs ih =>
      intro b t h
      rw [List.dropWhile_cons] at h
      by_cases hx : p x = true
      · rw [if_pos hx] at h; exact ih b t h
      · rw [if_neg hx] at h
        injection h with h1 h2
        subst h1
        simpa using hx

theorem dtSpan_isSome_of_firstline (line : List Char) (g : FParts)
    (hf : reMatch rxFirstline line = some g) : (dtSpan line).isSome = true := by
  unfold reMatch rxFirstline rxBind at hf
  unfold dtSpan
  cases hd : rxDatetime line with
  | nil => rw [hd] at hf; simp at hf
  | cons pr t => simp

theorem reprEscape_plain (c : Char) (h : reprPlain c = true) :
    reprEscape apos c = [c] := by
  have h1 : ¬ (c = '\\') := by rintro rfl; exact absurd h (by decide)
  have h2 : ¬ (c = apos) := by rintro rfl; exact absurd h (by decide)
  have h3 : ¬ (c = '\n') := by rintro rfl; exact absurd h (by decide)
  have h4 : ¬ (c = '\r') := by rintro rfl; exact absurd h (by decide)
  have h5 : ¬ (c = '\t') := by rintro rfl; exact absurd h (by decide)
  have h6 : ¬ (c.toNat < 32 ∨ c.toNat = 127) := by
    simp only [reprPlain, decide_eq_true_eq] at h
    obtain ⟨-, -, h32, h127⟩ := h
    omega
  rw [reprEscape, if_neg h1, if_neg h2, if_neg h3, if_neg h4, if_neg h5, if_neg h6]

theorem flatMap_reprEscape_plain :
    ∀ (l : List Char), (∀ c ∈ l, reprPlain c = true) →
      l.flatMap (reprEscape apos) = l := by
  intro l
  induction l with
  | nil => intro _; rfl
  | cons x t ih =>
      intro h
      have hx := reprEscape_plain x (h x (by simp))
      have ht := ih (fun c hc => h c (List.mem_cons_of_mem _ hc))
      simp [List.flatMap_cons, hx, ht]

theorem hasChar_false_of_plain :
    ∀ (l : List Char), (∀ c ∈ l, reprPlain c = true) → hasChar l apos = false := by
  intro l
  induction l with
  | nil => intro _; rfl
  | cons x t ih =>
      intro h
      have hx : ¬ (x = apos) := by
        rintro rfl; exact absurd (h apos (by simp)) (by decide)
      have ht := ih (fun c hc => h c (List.mem_cons_of_mem _ hc))
      simp only [hasChar, List.any_cons] at ht ⊢
      simp [hx, ht]

/-- For a string of plain characters, Python `repr` is just the string
wrapped in single quotes. -/
theorem pyRepr_plain (l : List Char) (h : ∀ c ∈ l, reprPlain c = true) :
    pyRepr l = apos :: (l ++ [apos]) := by
  unfold pyRepr
  rw [hasChar_false_of_plain l h]
  simp [flatMap_reprEscape_plain l h]

set_option maxRecDepth 8192

/-- Claim C10: on the empty input the segmenter raises no error and returns
an empty conversation (the fatal first-line path needs at least one line). -/
theorem empty_input_ok : identifyMessages [] = Except.ok [] := rfl

/-- Claim C1, counterexample: for the body `IMG-001.jpg (arquivo anexado)`
the classifier does NOT return the Image category with filename
`IMG-001.jpg` — the slice starts at index 1 and drops the leading `I`. -/
theorem attachment_scenario_cex :
    classify (chars "IMG-001.jpg (arquivo anexado)")
      ≠ Except.ok (MediaCategory.image (chars "IMG-001.jpg")) := by decide

/-- Claim C1, amended: for the body `IMG-001.jpg (arquivo anexado)` the
classifier returns the Image category with filename `MG-001.jpg` — the
extracted name is the slice from index 1 (the position after the export's
invisible marker character, absent from this body) up to the attachment
suffix. -/
theorem attachment_scenario_amended :
    classify (chars "IMG-001.jpg (arquivo anexado)")
      = Except.ok (MediaCategory.image (chars "MG-001.jpg")) := by decide

/-- Claim C3: the classifier is NOT total — a body ending in a bare `.mp3`
with no ` (arquivo` marker enters the audio branch, whose filename slice
calls `.index(' (arquivo')`, raising `ValueError: substring not found`. -/
theorem audio_bare_extension_raises :
    classify (chars "abc.mp3")
      = Except.error (PyError.valueError (chars "substring not found")) := by decide

/-- Claim C5, counterexample: for the body `localização:AB` the classifier
returns LocationShare with text `B`, not the full substring `AB` that
follows the marker — one extra character is skipped. -/
theorem location_text_cex :
    classify (chars "localização:AB")
      = Except.ok (MediaCategory.locationShare (chars "B"))
    ∧ chars "B" ≠ chars "AB" := by decide

/-- Claim C5, amended: for every body containing the location marker the
classifier returns LocationShare, and its text is the substring following
the marker with its FIRST character dropped (the slice starts at the marker
index plus 13, one past the 12-character marker, assuming a separating
space). -/
theorem location_text_amended (body : List Char)
    (h : containsSub body locMarker = true) :
    ∃ u, afterFirst locMarker body = some u ∧
      classify body = Except.ok (MediaCategory.locationShare (u.drop 1)) := by
  have hb1 : ¬ (body = missedVoice) := by
    rintro rfl; exact absurd h (by decide)
  have hb2 : ¬ (body = missedVideo) := by
    rintro rfl; exact absurd h (by decide)
  unfold containsSub at h
  cases hi : pyIndexOpt locMarker body with
  | none => rw [hi] at h; simp at h
  | some i =>
      refine ⟨body.drop (i + locMarker.length), ?_, ?_⟩
      · simp [afterFirst, hi]
      · simp only [classify, hi]
        rw [if_neg (fun hor => hor.elim hb1 hb2)]
        have hidx : i + locMarker.length + 1 = i + 13 := by
          have h12 : locMarker.length = 12 := rfl
          omega
        rw [List.drop_drop, hidx]

/-- Claim C5, witness for the amended theorem at a concrete body. -/
theorem location_text_amended_witness :
    ∃ u, afterFirst locMarker (chars "localização: maps.x/q") = some u ∧
      classify (chars "localização: maps.x/q")
        = Except.ok (MediaCategory.locationShare (u.drop 1)) :=
  location_text_amended (chars "localização: maps.x/q") (by decide)

/-- Claim C2, counterexample: a line accepted only by the headerless grammar
yields the sender placeholder `Whatsapp`, not `System`. -/
theorem headerless_sender_cex :
    parseLine (chars "13/04/2022 19:30 - As mensagens estao protegidas")
      = Except.ok (some ⟨⟨2022, 4, 13, 19, 30, 0⟩, chars "Whatsapp",
          chars "As mensagens estao protegidas"⟩)
    ∧ chars "Whatsapp" ≠ chars "System" := by decide

/-- Claim C2, amended: every line the parser accepts without a named-sender
match — that is, through the headerless grammar — is given the synthetic
sender placeholder `Whatsapp`. -/
theorem headerless_sender_amended (line : List Char) (r : Msg)
    (hw : reMatch rxWhatsapp line = none)
    (hr : parseLine line = Except.ok (some r)) :
    r.sender = whatsappSender := by
  unfold parseLine at hr
  rw [hw] at hr
  simp only [] at hr
  cases hf : reMatch rxFirstline line with
  | none => rw [hf] at hr; simp at hr
  | some g =>
      rw [hf] at hr
      simp only [] at hr
      cases hs : dtSpan line with
      | none => rw [hs] at hr; simp at hr
      | some n =>
          rw [hs] at hr
          simp only [] at hr
          by_cases hn : n ≠ 16
          · simp only [if_pos hn] at hr; simp at hr
          · simp only [if_neg hn] at hr
            cases hd : parseDayfirstDateTime g.date g.time with
            | none => rw [hd] at hr; simp at hr
            | some d =>
                rw [hd] at hr
                simp only [Except.ok.injEq, Option.some.injEq] at hr
                rw [← hr]

/-- Claim C2, witness for the amended theorem at a concrete headerless
line. -/
theorem headerless_sender_amended_witness :
    (⟨⟨2022, 4, 13, 19, 30, 0⟩, chars "Whatsapp",
      chars "As mensagens estao protegidas"⟩ : Msg).sender = whatsappSender :=
  headerless_sender_amended
    (chars "13/04/2022 19:30 - As mensagens estao protegidas") _
    (by decide) (by decide)

/-- Claim C4, counterexample: a continuation line with leading whitespace
(`  Line two`) is appended with that leading whitespace REMOVED — the body
becomes `Line one\nLine two`, not `Line one\n  Line two`. -/
theorem continuation_strip_cex :
    identifyMessages [chars "1/1/20, 10:00 AM - Alice: Line one", chars "  Line two"]
      = Except.ok [⟨⟨2020, 1, 1, 10, 0, 0⟩, chars "Alice", chars "Line one\nLine two"⟩]
    ∧ chars "Line one\nLine two" ≠ chars "Line one\n  Line two" := by decide

/-- Claim C4, amended: a continuation line consumed while a message is under
construction is appended to its body, joined by a single newline, after
stripping BOTH leading and trailing whitespace (Python `line.strip()`). -/
theorem continuation_strip_amended (acc : List Msg) (cur : Msg)
    (line : List Char) (rest : List (List Char))
    (h : parseLine line = Except.ok none) :
    identifyGo acc (some cur) (line :: rest)
      = identifyGo acc
          (some ⟨cur.date, cur.sender, cur.body ++ '\n' :: pyStrip line⟩) rest := by
  simp only [identifyGo, h]

/-- Claim C4, witness for the amended theorem at a concrete state and
continuation line. -/
theorem continuation_strip_amended_witness :
    identifyGo [] (some ⟨⟨2020, 1, 1, 10, 0, 0⟩, chars "Alice", chars "Hi"⟩)
        [chars " there  "]
      = identifyGo []
          (some ⟨⟨2020, 1, 1, 10, 0, 0⟩, chars "Alice",
            chars "Hi" ++ '\n' :: pyStrip (chars " there  ")⟩) [] :=
  continuation_strip_amended [] ⟨⟨2020, 1, 1, 10, 0, 0⟩, chars "Alice", chars "Hi"⟩
    (chars " there  ") [] (by decide)

/-- Claim C6, counterexample: the line `99/99/99, 99:99 - Alice: hi` has the
lexical shape of the named-sender grammar but an invalid date; parsing fails
with the external date parser's own ValueError, whose message names neither
the offending line nor the two grammar patterns. -/
theorem invalid_date_error_cex :
    parseLine (chars "99/99/99, 99:99 - Alice: hi")
      = Except.error (PyError.valueError (chars "Unknown string format: 99/99/99 99:99"))
    ∧ containsSub (chars "Unknown string format: 99/99/99 99:99")
        (chars "WHATSAPP_RE=") = false
    ∧ containsSub (chars "Unknown string format: 99/99/99 99:99")
        (chars "FIRSTLINE_RE=") = false := by decide

/-- Claim C6, amended: when a line matches the named-sender grammar but its
date/time cannot be interpreted, the parse fails by propagating the date
parser's ValueError built from the date and time captures alone; the Error
that names the line and the two grammar patterns is raised only for a first
line matching neither grammar. -/
theorem invalid_date_error_amended (line : List Char) (g : WParts)
    (hw : reMatch rxWhatsapp line = some g)
    (hd : parseDayfirstDateTime g.date g.time = none) :
    parseLine line = Except.error (PyError.valueError (dtErrMsg g.date g.time)) := by
  unfold parseLine
  rw [hw]
  simp only [] 
  rw [hd]

/-- Claim C6, witness for the amended theorem at a concrete malformed
line. -/
theorem invalid_date_error_amended_witness :
    parseLine (chars "99/99/99, 99:99 - Bob: oi")
      = Except.error (PyError.valueError
          (dtErrMsg (chars "99/99/99") (chars "99:99"))) :=
  invalid_date_error_amended (chars "99/99/99, 99:99 - Bob: oi")
    ⟨chars "99/99/99", chars "99:99", chars "Bob", chars "oi"⟩
    (by decide) (by decide)

/-- Claim C7, counterexample: the line `99/99/2099 99:99 x` matches the
headerless grammar only and its date-time span is exactly 16 characters,
yet it is NOT accepted as a header — the invalid date makes the whole parse
raise instead. -/
theorem headerless_span_cex :
    (reMatch rxFirstline (chars "99/99/2099 99:99 x")).isSome = true
    ∧ reMatch rxWhatsapp (chars "99/99/2099 99:99 x") = none
    ∧ dtSpan (chars "99/99/2099 99:99 x") = some 16
    ∧ parseLine (chars "99/99/2099 99:99 x")
        = Except.error (PyError.valueError
            (chars "Unknown string format: 99/99/2099 99:99")) := by decide

/-- Claim C7, amended: for a line matching the headerless grammar but not
the named-sender grammar, a span other than 16 makes the parser reject the
line as a header (returning none, the continuation outcome); acceptance
requires BOTH the 16-character span and an interpretable date/time, and
then produces the headerless message. -/
theorem headerless_span_amended (line : List Char) (g : FParts)
    (hw : reMatch rxWhatsapp line = none)
    (hf : reMatch rxFirstline line = some g) :
    (dtSpan line ≠ some 16 → parseLine line = Except.ok none)
    ∧ (∀ r : Msg, parseLine line = Except.ok (some r) → dtSpan line = some 16)
    ∧ (dtSpan line = some 16 →
        ∀ d : PyDateTime, parseDayfirstDateTime g.date g.time = some d →
          parseLine line = Except.ok (some ⟨d, whatsappSender, g.body⟩)) := by
  have hsp := dtSpan_isSome_of_firstline line g hf
  refine ⟨?_, ?_, ?_⟩
  · intro hne
    cases hs : dtSpan line with
    | none => rw [hs] at hsp; simp at hsp
    | some n =>
        have hn : n ≠ 16 := by rintro rfl; exact hne hs
        unfold parseLine
        rw [hw]
        simp only []
        rw [hf]
        simp only []
        rw [hs]
        simp only [if_pos hn]
  · intro r hr
    unfold parseLine at hr
    rw [hw] at hr
    simp only [] at hr
    rw [hf] at hr
    simp only [] at hr
    cases hs : dtSpan line with
    | none => rw [hs] at hr; simp at hr
    | some n =>
        rw [hs] at hr
        simp only [] at hr
        by_cases hn : n = 16
        · exact congrArg some hn
        · simp only [if_pos hn] at hr
          simp at hr
  · intro hs d hd
    unfold parseLine
    rw [hw]
    simp only []
    rw [hf]
    simp only []
    rw [hs]
    simp only [if_neg (by simp : ¬ (16 ≠ 16))]
    rw [hd]

/-- Claim C7, witness for the amended theorem: a genuinely short headerless
line whose span is 14 characters is rejected as a header. -/
theorem headerless_span_amended_witness :
    parseLine (chars "13/04/22 19:30 - oi") = Except.ok none :=
  (headerless_span_amended (chars "13/04/22 19:30 - oi")
      ⟨chars "13/04/22", chars "19:30", chars "oi"⟩
      (by decide) (by decide)).1 (by decide)

theorem groupRuns_aux :
    ∀ (n : Nat) (l : List Msg), l.length ≤ n →
      (((groupRuns l).map Prod.snd).flatten = l)
      ∧ (∀ g ∈ groupRuns l, g.2 ≠ [] ∧ ∀ m ∈ g.2, m.sender = g.1)
      ∧ List.Chain' (fun a b => a.1 ≠ b.1) (groupRuns l) := by
  intro n
  induction n with
  | zero =>
      intro l hl
      have hnil : l = [] := List.length_eq_zero.mp (Nat.le_zero.mp hl)
      subst hnil
      refine ⟨?_, ?_, ?_⟩ <;> simp [groupRuns]
  | succ n ih =>
      intro l hl
      cases l with
      | nil => refine ⟨?_, ?_, ?_⟩ <;> simp [groupRuns]
      | cons m rest =>
          have hre : (rest.dropWhile (fun x => decide (x.sender = m.sender))).length ≤ n := by
            have hd := (List.dropWhile_sublist
              (l := rest) (p := fun x => decide (x.sender = m.sender))).length_le
            simp only [List.length_cons] at hl
            omega
          obtain ⟨ih1, ih2, ih3⟩ := ih _ hre
          rw [groupRuns]
          refine ⟨?_, ?_, ?_⟩
          · simp only [List.map_cons, List.flatten_cons, ih1, List.cons_append]
            rw [List.takeWhile_append_dropWhile]
          · intro g hg
            rcases List.mem_cons.mp hg with hg1 | hg2
            · subst hg1
              refine ⟨by simp, ?_⟩
              intro x hx
              rcases List.mem_cons.mp hx with rfl | hx2
              · rfl
              · have hpx := List.mem_takeWhile_imp hx2
                simpa using hpx
            · exact ih2 g hg2
          · rw [List.chain'_cons']
            refine ⟨?_, ih3⟩
            intro b hb
            cases hr2 : rest.dropWhile (fun x => decide (x.sender = m.sender)) with
            | nil => rw [hr2] at hb; simp [groupRuns] at hb
            | cons m2 t2 =>
                rw [hr2] at hb
                rw [groupRuns] at hb
                simp only [List.head?_cons, Option.mem_def, Option.some.injEq] at hb
                have hfalse := dropWhile_head_false _ rest m2 t2 hr2
                simp only [decide_eq_false_iff_not] at hfalse
                rw [← hb]
                exact fun he => hfalse (he.symm)

/-- Claim C8: the sender grouping is a lossless partition — concatenating
the groups' message sequences in order reproduces the conversation exactly,
every group is a non-empty run of messages with the group's sender, and
adjacent groups have different senders (so each group is a maximal
contiguous run and non-adjacent runs of the same sender stay separate). -/
theorem sender_grouping_partition (l : List Msg) :
    (((groupRuns l).map Prod.snd).flatten = l)
    ∧ (∀ g ∈ groupRuns l, g.2 ≠ [] ∧ ∀ m ∈ g.2, m.sender = g.1)
    ∧ List.Chain' (fun a b => a.1 ≠ b.1) (groupRuns l) :=
  groupRuns_aux l.length l le_rfl

/-- Claim C8, witness: the partition invariants instantiated on a concrete
conversation with an interleaved sender (A, A, B, A). -/
theorem sender_grouping_partition_witness :
    (((groupRuns
        [⟨⟨2020, 1, 1, 10, 0, 0⟩, chars "A", chars "x"⟩,
         ⟨⟨2020, 1, 1, 10, 1, 0⟩, chars "A", chars "y"⟩,
         ⟨⟨2020, 1, 1, 10, 2, 0⟩, chars "B", chars "z"⟩,
         ⟨⟨2020, 1, 1, 10, 3, 0⟩, chars "A", chars "w"⟩]).map Prod.snd).flatten
      = [⟨⟨2020, 1, 1, 10, 0, 0⟩, chars "A", chars "x"⟩,
         ⟨⟨2020, 1, 1, 10, 1, 0⟩, chars "A", chars "y"⟩,
         ⟨⟨2020, 1, 1, 10, 2, 0⟩, chars "B", chars "z"⟩,
         ⟨⟨2020, 1, 1, 10, 3, 0⟩, chars "A", chars "w"⟩])
    ∧ List.Chain' (fun a b => a.1 ≠ b.1)
        (groupRuns
          [⟨⟨2020, 1, 1, 10, 0, 0⟩, chars "A", chars "x"⟩,
           ⟨⟨2020, 1, 1, 10, 1, 0⟩, chars "A", chars "y"⟩,
           ⟨⟨2020, 1, 1, 10, 2, 0⟩, chars "B", chars "z"⟩,
           ⟨⟨2020, 1, 1, 10, 3, 0⟩, chars "A", chars "w"⟩]) :=
  ⟨(sender_grouping_partition _).1, (sender_grouping_partition _).2.2⟩

theorem containsSub_of_parts (hay a needle c : List Char)
    (he : hay = a ++ (needle ++ c)) : containsSub hay needle = true := by
  rw [he]; exact containsSub_parts a needle c

/-- Claim C9, counterexample: for the first line `a\b` (one backslash),
which matches neither grammar, the segmenter raises the Error, but its
message contains the line's repr — in which the backslash is doubled — and
therefore does NOT contain the line text verbatim. -/
theorem first_line_error_cex :
    identifyMessages [chars "a\\b"]
      = Except.error (PyError.appError (firstLineMsg (chars "a\\b")))
    ∧ containsSub (firstLineMsg (chars "a\\b")) (chars "a\\b") = false := by decide

/-- Claim C9, amended: when the first line matches neither grammar the
segmenter fails — producing no output at all — with the Error whose message
contains the line's repr (hence the line verbatim whenever every character
of the line survives repr unescaped) and names both grammar patterns. -/
theorem first_line_error_amended (line : List Char) (rest : List (List Char))
    (h : parseLine line = Except.ok none) :
    identifyMessages (line :: rest)
        = Except.error (PyError.appError (firstLineMsg line))
    ∧ containsSub (firstLineMsg line) (pyRepr line) = true
    ∧ containsSub (firstLineMsg line) (chars "FIRSTLINE_RE=") = true
    ∧ containsSub (firstLineMsg line) (chars "WHATSAPP_RE=") = true
    ∧ ((∀ c ∈ line, reprPlain c = true) →
        containsSub (firstLineMsg line) line = true) := by
  refine ⟨?_, ?_, ?_, ?_, ?_⟩
  · simp only [identifyMessages, identifyGo, h]
  · exact containsSub_of_parts _
      (chars "Can" ++ (apos :: chars "t parse the first line: "))
      _ (chars ", regexes are " ++ (chars "FIRSTLINE_RE=" ++ (pyRepr firstlineReStr ++
         (chars " and " ++ (chars "WHATSAPP_RE=" ++ pyRepr whatsappReStr)))))
      (by simp [firstLineMsg, List.append_assoc])
  · exact containsSub_of_parts _
      (chars "Can" ++ (apos :: chars "t parse the first line: ") ++ pyRepr line
        ++ chars ", regexes are ")
      _ (pyRepr firstlineReStr ++ (chars " and "
          ++ (chars "WHATSAPP_RE=" ++ pyRepr whatsappReStr)))
      (by simp [firstLineMsg, List.append_assoc])
  · exact containsSub_of_parts _
      (chars "Can" ++ (apos :: chars "t parse the first line: ") ++ pyRepr line
        ++ chars ", regexes are " ++ chars "FIRSTLINE_RE=" ++ pyRepr firstlineReStr
        ++ chars " and ")
      _ (pyRepr whatsappReStr)
      (by simp [firstLineMsg, List.append_assoc])
  · intro hp
    refine containsSub_of_parts _
      (chars "Can" ++ (apos :: chars "t parse the first line: ") ++ [apos])
      _ ([apos] ++ (chars ", regexes are " ++ (chars "FIRSTLINE_RE="
          ++ (pyRepr firstlineReStr ++ (chars " and "
          ++ (chars "WHATSAPP_RE=" ++ pyRepr whatsappReStr)))))) ?_
    rw [firstLineMsg, pyRepr_plain line hp]
    simp [List.append_assoc]

/-- Claim C9, witness for the amended theorem: a plain unparseable first
line is reported with its text appearing verbatim in the error message. -/
theorem first_line_error_amended_witness :
    identifyMessages [chars "oi gente"]
        = Except.error (PyError.appError (firstLineMsg (chars "oi gente")))
    ∧ containsSub (firstLineMsg (chars "oi gente")) (chars "oi gente") = true :=
  ⟨(first_line_error_amended (chars "oi gente") [] (by decide)).1,
   (first_line_error_amended (chars "oi gente") [] (by decide)).2.2.2.2 (by decide)⟩
